import Mathlib

/-!
A shallow embedding of the PencilBlue plugin API controller
(src/plugins/pencilblue/controllers/api/plugins/plugin_api.js) together with
theorems about its dispatch validation, its per-action handlers and the
sequential task pipeline used by reset_settings.

Conventions of the embedding:

* Results that external collaborators (plugin lookup, settings persistence,
  settings reset, plugin initialisation) deliver through callbacks are passed
  to each handler as explicit oracle arguments of type Option JsError and
  Option Plugin: the function under verification is exactly the code of the
  controller, the collaborators are free inputs.
* A handler finishing by calling cb is Outcome.response; calling
  this.reqHandler.serve404() is Outcome.notFound; returning without ever
  calling cb is Outcome.noResponse; a thrown ReferenceError or TypeError is
  Outcome.crash carrying the offending identifier or the error kind.  The
  module runs under strict mode in Node.js, and reading an identifier that is
  declared neither in the module nor among the Node.js globals throws a
  ReferenceError; the identifiers name (in install), options (in uninstall)
  and PluginDetailsLoader (in reset_settings) are declared nowhere in the
  module and are not Node.js globals.
* Property lookup on a JavaScript object literal consults the prototype chain:
  VALID_ACTIONS[a] is undefined only when a names neither an own key nor a
  property inherited from Object.prototype.
-/

namespace PluginApi

/-- Localized message key used by render for a bad action (src line 82). -/
def VALID_ACTION_REQUIRED_KEY : String := "generic.VALID_ACTION_REQUIRED"

/-- Localized message key used by render for a missing identifier (src line 87). -/
def VALID_IDENTIFIER_REQUIRED_KEY : String := "generic.VALID_IDENTIFIER_REQUIRED"

/-- Localized message key used by the reset_settings load task (src line 165). -/
def PLUGIN_NOT_FOUND_KEY : String := "generic.PLUGIN_NOT_FOUND"

/-- Localized message key for a failed reset_settings run (src line 197). -/
def RESET_SETTINGS_FAILED_KEY : String := "generic.RESET_SETTINGS_FAILED"

/-- Localized message key for a successful reset_settings run (src line 201). -/
def RESET_SETTINGS_SUCCESS_KEY : String := "generic.RESET_SETTINGS_SUCCESS"

/-- Localized message key for a failed plugin initialisation (src lines 217, 223). -/
def INITIALIZATION_FAILED_KEY : String := "generic.INITIALIZATION_FAILED"

/-- Localized message key for a successful plugin initialisation (src line 224). -/
def INITIALIZATION_SUCCESS_KEY : String := "generic.INITIALIZATION_SUCCESS"

/-- Localized message key for a failed set_theme (src lines 246, 259). -/
def SET_THEME_FAILED_KEY : String := "generic.SET_THEME_FAILED"

/-- Localized message key for a successful set_theme (src line 260). -/
def SET_THEME_SUCCESS_KEY : String := "generic.SET_THEME_SUCCESS"

/-- Modelled from the spec: this.ls.g is the external string-resource lookup
(localisation collaborator, not under src/); it is modelled as returning its key. -/
def lsg (key : String) : String := key

/-- Modelled from the spec: util.format applied to a template that contains no
placeholder (the modelled keys contain none) and one extra argument; Node.js
appends the extra argument separated by a single space. -/
def jsFormat (template arg : String) : String := template ++ " " ++ arg

/-- Modelled from the spec: pb.validation.isNonEmptyStr(v, true) (validation
collaborator, not under src/) holds exactly when v is a string and is not the
empty string; an absent path variable is not a string. -/
def isNonEmptyStr : Option String → Bool
  | some s => !s.isEmpty
  | none => false

/-- Modelled from the spec: RequestHandler.DEFAULT_THEME, the default-theme
sentinel identifier (pb collaborator, not under src/); its concrete text is
irrelevant, only equality with the requested identifier matters. -/
def DEFAULT_THEME : String := "default"

/-- Status flag of the uniform response envelope (BaseController.API_SUCCESS and
BaseController.API_FAILURE). -/
inductive ApiStatus
  | success
  | failure
  deriving DecidableEq

/-- Data slot of the uniform response envelope: absent, a single string (a job
id) or a list of error messages. -/
inductive ApiData
  | missing
  | str (s : String)
  | list (l : List String)
  deriving DecidableEq

/-- Modelled from the spec: the uniform response envelope produced by
BaseController.apiResponse (pb collaborator, not under src/). -/
structure Envelope where
  status : ApiStatus
  message : String
  data : ApiData
  deriving DecidableEq

/-- Modelled from the spec: BaseController.apiResponse packages a status, a
message and optional data into the uniform envelope. -/
def apiResponse (status : ApiStatus) (message : String) (data : ApiData) : Envelope :=
  ⟨status, message, data⟩

/-- Argument object passed to the continuation cb by the controller:
the envelope plus an optional HTTP status code (absent means the transport
default, 200). -/
structure CbResponse where
  content : Envelope
  code : Option Nat
  deriving DecidableEq

/-- Observable result of running a handler on a request. -/
inductive Outcome
  | response (r : CbResponse)
  | notFound
  | noResponse
  | crash (jsId : String)
  deriving DecidableEq

/-- Sub-error carried inside the validationErrors array of an error object;
only its message field is read by the controller (src line 194). -/
structure SubError where
  message : String
  deriving DecidableEq

/-- A JavaScript Error instance as far as the controller inspects it: a message
and an optional validationErrors array. -/
structure JsError where
  message : String
  validationErrors : Option (List SubError)
  deriving DecidableEq

/-- Theme definition attached to a plugin or to its loaded details; the
controller only tests truthiness of its settings field (src line 182). -/
structure ThemeDef where
  settings : Bool
  deriving DecidableEq

/-- A plugin object as far as the controller inspects it (src lines 169, 252,
257): uid, dirName and an optional theme object. -/
structure Plugin where
  uid : String
  dirName : String
  theme : Option ThemeDef
  deriving DecidableEq

/-- Details object that PluginDetailsLoader.load would produce; only its theme
field is inspected by the third pipeline task (src line 182). -/
structure Details where
  theme : Option ThemeDef
  deriving DecidableEq

/-- Identifier of the ReferenceError thrown in install (src line 117). -/
def REF_ERROR_NAME : String := "name"

/-- Identifier of the ReferenceError thrown in uninstall (src line 138). -/
def REF_ERROR_OPTIONS : String := "options"

/-- Identifier of the ReferenceError thrown in reset_settings (src line 170). -/
def REF_ERROR_DETAILS_LOADER : String := "PluginDetailsLoader"

/-- Marker for a thrown TypeError (calling a non-function or reading a property
of null). -/
def TYPE_ERROR : String := "TypeError"

/-- Name of the first action key of VALID_ACTIONS (src line 61). -/
def ACTION_INSTALL : String := "install"

/-- Name of the second action key of VALID_ACTIONS (src line 62). -/
def ACTION_UNINSTALL : String := "uninstall"

/-- Name of the third action key of VALID_ACTIONS (src line 63). -/
def ACTION_RESET_SETTINGS : String := "reset_settings"

/-- Name of the fourth action key of VALID_ACTIONS (src line 64). -/
def ACTION_INIT : String := "initialize"

/-- Name of the fifth action key of VALID_ACTIONS (src line 65). -/
def ACTION_SET_THEME : String := "set_theme"

/-- Own keys of the VALID_ACTIONS object literal (src lines 60-66); every key
maps to the value true. -/
def VALID_ACTION_KEYS : List String :=
  [ACTION_INSTALL, ACTION_UNINSTALL, ACTION_RESET_SETTINGS, ACTION_INIT, ACTION_SET_THEME]

/-- Own-property lookup on VALID_ACTIONS: some true for the five declared keys
and none (undefined) otherwise. -/
def VALID_ACTIONS_own (a : String) : Option Bool :=
  if a ∈ VALID_ACTION_KEYS then some true else none

/-- Property names every plain object literal inherits from Object.prototype in
Node.js; lookups of these on VALID_ACTIONS do not yield undefined. -/
def objectProtoProps : List String :=
  ["constructor", "hasOwnProperty", "isPrototypeOf", "propertyIsEnumerable",
   "toLocaleString", "toString", "valueOf",
   "__defineGetter__", "__defineSetter__", "__lookupGetter__", "__lookupSetter__",
   "__proto__"]

/-- Key whose inherited value is the prototype object itself rather than a
function. -/
def PROTO_KEY : String := "__proto__"

/-- Shape of a non-undefined value produced by the property lookup
VALID_ACTIONS[action]: the own value true, an inherited Object.prototype
function, or the prototype object. -/
inductive PropVal
  | ownTrue
  | inheritedFn
  | protoObj
  deriving DecidableEq

/-- Full JavaScript property lookup VALID_ACTIONS[action] (src lines 81, 86):
own keys first, then the prototype chain; an absent path variable indexes with
the string undefined, which names no property. -/
def lookupAction : Option String → Option PropVal
  | none => none
  | some a =>
    match VALID_ACTIONS_own a with
    | some _ => some PropVal.ownTrue
    | none =>
      if a ∈ objectProtoProps then
        if a = PROTO_KEY then some PropVal.protoObj else some PropVal.inheritedFn
      else none

/-- Truthiness of the looked-up property value: true, inherited functions and
the prototype object are all truthy; undefined is falsy. -/
def actionTruthy : Option PropVal → Bool
  | none => false
  | some _ => true

/-- Embeds the validation block of render (src lines 80-88): the invalid-action
error fires when the action is empty or the lookup yields undefined, the
missing-identifier error fires when the looked-up value is truthy and the
identifier is empty; the two checks are evaluated independently and collected. -/
def renderErrors (action identifier : Option String) : List String :=
  (if isNonEmptyStr action = false ∨ lookupAction action = none then
      [lsg VALID_ACTION_REQUIRED_KEY]
    else []) ++
  (if actionTruthy (lookupAction action) = true ∧ isNonEmptyStr identifier = false then
      [lsg VALID_IDENTIFIER_REQUIRED_KEY]
    else [])

/-- Context object handed to a job constructor (src lines 110-115, 134-139);
the pluginService field is an external collaborator and is omitted. -/
structure JobCtx where
  name : String
  pluginUid : String
  initiator : Bool
  deriving DecidableEq

/-- Trace of one run of a job-launching handler: how far the handler got before
its outcome. -/
structure JobAttempt where
  ctx : Option JobCtx
  jobCreated : Bool
  inited : Bool
  runAsInitiator : Option Bool
  ran : Bool
  outcome : Outcome
  deriving DecidableEq

/-- Modelled from the spec: PluginInstallJob.createName (pb collaborator, not
under src/) derives a deterministic job name from the action and plugin id. -/
def pluginInstallJobName (uid : String) : String := "INSTALL_PLUGIN_" ++ uid

/-- Modelled from the spec: PluginUninstallJob.createName (pb collaborator, not
under src/) derives a deterministic job name from the action and plugin id. -/
def pluginUninstallJobName (uid : String) : String := "UNINSTALL_PLUGIN_" ++ uid

/-- Embeds install (src lines 106-123).  The context literal (110-115) is built
with initiator true and the job object is constructed, but line 117 then
evaluates job.init(name) where the identifier name is declared nowhere in the
function or module (uninstall declares var name on line 133; install does not),
so the handler throws a ReferenceError before init, setRunAsInitiator, run or
the Success envelope of lines 121-122 are reached. -/
def install (uid : String) : JobAttempt :=
  ⟨some ⟨pluginInstallJobName uid, uid, true⟩, true, false, none, false,
    Outcome.crash REF_ERROR_NAME⟩

/-- Embeds uninstall (src lines 131-147).  Line 133 computes the job name, but
the context literal of lines 134-139 evaluates options.forCluster on line 138
where the identifier options is declared nowhere in the module, so the handler
throws a ReferenceError before the context is completed and before any job is
constructed, initialised or run. -/
def uninstall (_uid : String) : JobAttempt :=
  ⟨none, false, false, none, false, Outcome.crash REF_ERROR_OPTIONS⟩

/-- Result of one run of set_theme: the outcome plus the value passed to
settings.set when persistence was reached. -/
structure SetThemeResult where
  outcome : Outcome
  persisted : Option String
  deriving DecidableEq

/-- Truthiness of plugin && util.isObject(plugin.theme) (src line 252). -/
def validThemePlugin : Option Plugin → Bool
  | none => false
  | some p => p.theme.isSome

/-- Embeds the tail of set_theme (src lines 257-267): resolve the theme as
plugin ? plugin.uid : uid, call settings.set and answer with a 500 Failure
envelope on a persistence error or a 200 Success envelope otherwise. -/
def set_theme_apply (uid : String) (plugin : Option Plugin)
    (persistErr : Option JsError) : SetThemeResult :=
  let theme := match plugin with
    | some p => p.uid
    | none => uid
  match persistErr with
  | some e =>
    ⟨Outcome.response
        ⟨apiResponse ApiStatus.failure (jsFormat (lsg SET_THEME_FAILED_KEY) uid)
            (ApiData.list [e.message]),
          some 500⟩,
      some theme⟩
  | none =>
    ⟨Outcome.response
        ⟨apiResponse ApiStatus.success (jsFormat (lsg SET_THEME_SUCCESS_KEY) uid)
            ApiData.missing,
          some 200⟩,
      some theme⟩

/-- Embeds set_theme (src lines 240-269).  Both guards of lines 245 and 252 are
conjoined with uid !== RequestHandler.DEFAULT_THEME, so for the sentinel the
handler proceeds straight to persistence; otherwise a lookup error answers with
a 500 Failure envelope and a missing plugin or missing theme object triggers
this.reqHandler.serve404(). -/
def set_theme (uid : String) (lookupErr : Option JsError) (plugin : Option Plugin)
    (persistErr : Option JsError) : SetThemeResult :=
  if uid = DEFAULT_THEME then
    set_theme_apply uid plugin persistErr
  else
    match lookupErr with
    | some e =>
      ⟨Outcome.response
          ⟨apiResponse ApiStatus.failure (jsFormat (lsg SET_THEME_FAILED_KEY) uid)
              (ApiData.list [e.message]),
            some 500⟩,
        none⟩
    | none =>
      if validThemePlugin plugin then set_theme_apply uid plugin persistErr
      else ⟨Outcome.notFound, none⟩

/-- Result of one run of the fifth handler: the outcome plus whether the
collaborator initPlugin was invoked. -/
structure InitResult where
  outcome : Outcome
  initPluginInvoked : Bool
  deriving DecidableEq

/-- Embeds the handler registered for the fourth action key (src lines 212-232,
prototype method named after that key): a lookup error answers with a 500
Failure envelope carrying [err.message] and the plugin initialiser is not
invoked; otherwise initPlugin is invoked and its error answers with a 400
Failure envelope, its success with a 200 Success envelope. -/
def initAction (uid : String) (lookupErr : Option JsError)
    (initErr : Option JsError) : InitResult :=
  match lookupErr with
  | some e =>
    ⟨Outcome.response
        ⟨apiResponse ApiStatus.failure (jsFormat (lsg INITIALIZATION_FAILED_KEY) uid)
            (ApiData.list [e.message]),
          some 500⟩,
      false⟩
  | none =>
    match initErr with
    | some e =>
      ⟨Outcome.response
          ⟨apiResponse ApiStatus.failure (jsFormat (lsg INITIALIZATION_FAILED_KEY) uid)
              (ApiData.list [e.message]),
            some 400⟩,
        true⟩
    | none =>
      ⟨Outcome.response
          ⟨apiResponse ApiStatus.success (jsFormat (lsg INITIALIZATION_SUCCESS_KEY) uid)
              ApiData.missing,
            some 200⟩,
        true⟩

/-- Observable behaviour of one async.series task on the pipeline-local state:
it calls back successfully, calls back with an error, or throws. -/
inductive StepOut (σ : Type)
  | ok (s : σ)
  | fail (e : JsError) (s : σ)
  | crash (jsId : String)

/-- Result of running async.series: completion, the first error (with the tasks
after it never invoked), or a throw escaping the task; invoked counts the tasks
that were started, in list order. -/
inductive SeriesResult (σ : Type)
  | completed (s : σ) (invoked : Nat)
  | failed (e : JsError) (s : σ) (invoked : Nat)
  | crashed (jsId : String) (invoked : Nat)

/-- Embeds async.series (src line 189): tasks run strictly in order, the first
task that calls back with an error stops the run, and a throw aborts it. -/
def seriesExec {σ : Type} : List (σ → StepOut σ) → σ → Nat → SeriesResult σ
  | [], s, n => SeriesResult.completed s n
  | t :: ts, s, n =>
    match t s with
    | StepOut.ok s2 => seriesExec ts s2 (n + 1)
    | StepOut.fail e s2 => SeriesResult.failed e s2 (n + 1)
    | StepOut.crash j => SeriesResult.crashed j (n + 1)

/-- Embeds the first reset_settings task (src lines 162-173).  The err argument
of the getPluginBySite callback is never examined, only falsiness of plugin is:
with no plugin the task calls back with the formatted not-found error; with a
plugin the right-hand side of the assignment on line 170 evaluates
PluginDetailsLoader.load where PluginDetailsLoader is declared nowhere in the
module, so the task throws a ReferenceError and the pipeline-local details
variable is never written. -/
def rsLoadStep (uid : String) (_lookupErr : Option JsError) (plugin : Option Plugin) :
    Option Details → StepOut (Option Details) :=
  fun s =>
    match plugin with
    | none => StepOut.fail ⟨jsFormat (lsg PLUGIN_NOT_FOUND_KEY) uid, none⟩ s
    | some _ => StepOut.crash REF_ERROR_DETAILS_LOADER

/-- Embeds the second reset_settings task (src lines 176-178): it hands the
details to the external resetSettings operation and forwards its callback. -/
def rsResetStep (resetErr : Option JsError) : Option Details → StepOut (Option Details) :=
  fun s =>
    match resetErr with
    | some e => StepOut.fail e s
    | none => StepOut.ok s

/-- Embeds the third reset_settings task (src lines 181-187): with a null
details the read details.theme would throw a TypeError, with no theme or falsy
theme settings the task is a no-op success, otherwise it forwards the callback
of the external resetThemeSettings operation. -/
def rsResetThemeStep (resetThemeErr : Option JsError) :
    Option Details → StepOut (Option Details) :=
  fun s =>
    match s with
    | none => StepOut.crash TYPE_ERROR
    | some d =>
      match d.theme with
      | none => StepOut.ok s
      | some t =>
        if t.settings = false then StepOut.ok s
        else
          match resetThemeErr with
          | some e => StepOut.fail e s
          | none => StepOut.ok s

/-- Embeds the message list built by the final callback (src lines 191-196):
the primary message first, then each validationErrors entry in original order
when that array is present. -/
def aggregateErrorMessages (e : JsError) : List String :=
  e.message ::
    (match e.validationErrors with
      | some l => l.map SubError.message
      | none => [])

/-- Embeds the final callback of async.series in reset_settings (src lines
189-203): an error answers with a 400 Failure envelope carrying the aggregated
messages, success answers with a Success envelope carrying a formatted message,
no data and no explicit code. -/
def reset_settings_final (uid : String) (err : Option JsError) : Outcome :=
  match err with
  | some e =>
    Outcome.response
      ⟨apiResponse ApiStatus.failure (jsFormat (lsg RESET_SETTINGS_FAILED_KEY) uid)
          (ApiData.list (aggregateErrorMessages e)),
        some 400⟩
  | none =>
    Outcome.response
      ⟨apiResponse ApiStatus.success (jsFormat (lsg RESET_SETTINGS_SUCCESS_KEY) uid)
          ApiData.missing,
        none⟩

/-- Result of one run of reset_settings: the outcome plus how many pipeline
tasks were started. -/
structure RsResult where
  outcome : Outcome
  stepsInvoked : Nat
  deriving DecidableEq

/-- Embeds reset_settings (src lines 155-204): the three tasks run through
async.series on the pipeline-local details variable, initially null, and the
final callback converts the result into an envelope. -/
def reset_settings (uid : String) (lookupErr : Option JsError) (plugin : Option Plugin)
    (resetErr resetThemeErr : Option JsError) : RsResult :=
  match seriesExec
      [rsLoadStep uid lookupErr plugin, rsResetStep resetErr, rsResetThemeStep resetThemeErr]
      none 0 with
  | SeriesResult.completed _ n => ⟨reset_settings_final uid none, n⟩
  | SeriesResult.failed e _ n => ⟨reset_settings_final uid (some e), n⟩
  | SeriesResult.crashed j n => ⟨Outcome.crash j, n⟩

/-- Oracle environment bundling every collaborator callback result a dispatched
handler can consume. -/
structure Env where
  lookupErr : Option JsError
  lookupPlugin : Option Plugin
  resetErr : Option JsError
  resetThemeErr : Option JsError
  initErr : Option JsError
  persistErr : Option JsError
  deriving DecidableEq

/-- Result of one run of render: the outcome plus which of the five per-action
handlers, if any, was invoked. -/
structure RenderResult where
  outcome : Outcome
  invokedHandler : Option String
  deriving DecidableEq

/-- Embeds the rejection branch of render (src lines 91-95): one Failure
envelope with an empty message, the collected errors as data and code 400;
no handler is invoked. -/
def rejectResponse (errors : List String) : RenderResult :=
  ⟨Outcome.response ⟨apiResponse ApiStatus.failure ("") (ApiData.list errors), some 400⟩,
    none⟩

/-- Placeholder for the string form of an absent path variable; unreachable at
the dispatch site because validation guarantees a non-empty identifier there. -/
def UNDEFINED_STR : String := "undefined"

/-- Embeds the dynamic dispatch this[action](identifier, cb) of render (src
line 97).  The five declared actions reach their prototype methods.  An action
naming an inherited Object.prototype function (or the constructor, whose body
is empty) calls a function that never invokes cb, so no response is ever
produced; calling the object-valued lookup of PROTO_KEY, or the undefined
lookup of a truly unknown action, throws a TypeError. -/
def dispatchAction (env : Env) (action : String) (identifier : String) : RenderResult :=
  if action = ACTION_INSTALL then
    ⟨(install identifier).outcome, some ACTION_INSTALL⟩
  else if action = ACTION_UNINSTALL then
    ⟨(uninstall identifier).outcome, some ACTION_UNINSTALL⟩
  else if action = ACTION_RESET_SETTINGS then
    ⟨(reset_settings identifier env.lookupErr env.lookupPlugin env.resetErr
        env.resetThemeErr).outcome,
      some ACTION_RESET_SETTINGS⟩
  else if action = ACTION_INIT then
    ⟨(initAction identifier env.lookupErr env.initErr).outcome, some ACTION_INIT⟩
  else if action = ACTION_SET_THEME then
    ⟨(set_theme identifier env.lookupErr env.lookupPlugin env.persistErr).outcome,
      some ACTION_SET_THEME⟩
  else if action ∈ objectProtoProps ∧ action ≠ PROTO_KEY then
    ⟨Outcome.noResponse, none⟩
  else
    ⟨Outcome.crash TYPE_ERROR, none⟩

/-- Embeds render (src lines 74-98): collect the validation errors, reject with
one 400 Failure envelope when any were collected, otherwise dispatch on the
action name. -/
def render (env : Env) (action identifier : Option String) : RenderResult :=
  let errors := renderErrors action identifier
  if 0 < errors.length then rejectResponse errors
  else
    match action with
    | some a => dispatchAction env a (identifier.getD UNDEFINED_STR)
    | none => ⟨Outcome.crash TYPE_ERROR, none⟩

/-- Oracle environment in which every collaborator succeeds and the lookup
returns no plugin. -/
def env0 : Env := ⟨none, none, none, none, none, none⟩

/-- Concrete plugin identifier used by closed instances. -/
def sampleUid : String := "plugin-x"

/-- Concrete unknown action name used by closed instances. -/
def otherAction : String := "bogus"

/-- Concrete inherited property name used by closed instances. -/
def toStringKey : String := "toString"

/-- Concrete inherited property name used by closed instances. -/
def valueOfKey : String := "valueOf"

/-- Concrete identifier path variable used by closed instances. -/
def sampleId : String := "x"

/-- Concrete collaborator error message used by closed instances. -/
def boomMsg : String := "boom"

/-- Concrete collaborator error used by closed instances. -/
def boomErr : JsError := ⟨boomMsg, none⟩

/-- Concrete plugin without a theme object used by closed instances. -/
def themelessPlugin : Plugin := ⟨sampleUid, sampleUid, none⟩

/-- C1: the claim states that for every non-empty plugin identifier the install
handler creates a job marked as cluster initiator, schedules it asynchronously
and synchronously returns a Success envelope whose data is the job id, never
failing once upstream validation passed.  The code contradicts this: after
building the job context (whose initiator field is indeed true) and
constructing the job, it evaluates job.init(name) where the identifier name is
declared nowhere, so every install run throws a ReferenceError; the job is
never inited or run and no envelope is ever produced. -/
theorem C1_install_reference_error (uid : String) :
    (install uid).outcome = Outcome.crash REF_ERROR_NAME ∧
    (install uid).inited = false ∧
    (install uid).ran = false ∧
    (install uid).ctx = some ⟨pluginInstallJobName uid, uid, true⟩ :=
  ⟨rfl, rfl, rfl, rfl⟩

/-- C5: the claim states that the uninstall handler marks and runs the job as
cluster initiator exactly when a request-scoped cluster flag is absent or not
explicitly false.  The code contradicts this: the context literal evaluates
options.forCluster where the identifier options is declared nowhere in the
module, so every uninstall run throws a ReferenceError before any job is
created, inited or run. -/
theorem C5_uninstall_reference_error (uid : String) :
    (uninstall uid).outcome = Outcome.crash REF_ERROR_OPTIONS ∧
    (uninstall uid).jobCreated = false ∧
    (uninstall uid).ran = false :=
  ⟨rfl, rfl, rfl⟩

/-- C2 counterexample: toString is not one of the five declared actions, yet
with a non-empty identifier the validation collects no errors (the lookup
VALID_ACTIONS[toString] finds the inherited Object.prototype function, which is
not undefined) and dispatch produces no Failure envelope at all: the inherited
function is called and the callback is never invoked. -/
theorem C2_unknown_action_counterexample :
    VALID_ACTIONS_own toStringKey = none ∧
    renderErrors (some toStringKey) (some sampleId) = [] ∧
    (render env0 (some toStringKey) (some sampleId)).outcome = Outcome.noResponse := by
  refine ⟨by decide, by decide, by decide⟩

/-- C2 (amended): whenever validation collects a non-empty error list, render
returns exactly one Failure envelope with status 400 carrying the collected
messages and invokes no per-action handler; and every unknown action that does
not name a property inherited from Object.prototype does produce the
invalid-action error. -/
theorem C2_validation_reject_amended :
    (∀ (env : Env) (action identifier : Option String),
        renderErrors action identifier ≠ [] →
        render env action identifier = rejectResponse (renderErrors action identifier)) ∧
    (∀ (a : String) (identifier : Option String),
        VALID_ACTIONS_own a = none → a ∉ objectProtoProps →
        lsg VALID_ACTION_REQUIRED_KEY ∈ renderErrors (some a) identifier) := by
  constructor
  · intro env action identifier h
    have hl : 0 < (renderErrors action identifier).length := List.length_pos.mpr h
    simp [render, hl]
  · intro a identifier hown hproto
    have hl : lookupAction (some a) = none := by
      simp [lookupAction, hown, hproto]
    simp [renderErrors, hl, actionTruthy]

/-- C2 witness: the amended statement applied at the concrete unknown action
bogus with a non-empty identifier. -/
theorem C2_validation_reject_amended_witness :
    render env0 (some otherAction) (some sampleId) =
      rejectResponse (renderErrors (some otherAction) (some sampleId)) ∧
    lsg VALID_ACTION_REQUIRED_KEY ∈ renderErrors (some otherAction) (some sampleId) :=
  ⟨C2_validation_reject_amended.1 env0 (some otherAction) (some sampleId) (by decide),
    C2_validation_reject_amended.2 otherAction (some sampleId) (by decide) (by decide)⟩

/-- C9 counterexample: valueOf is not one of the five declared actions, yet
with an absent identifier the missing-identifier error fires, because the
lookup VALID_ACTIONS[valueOf] finds the inherited truthy Object.prototype
function. -/
theorem C9_inherited_prop_counterexample :
    VALID_ACTIONS_own valueOfKey = none ∧
    lsg VALID_IDENTIFIER_REQUIRED_KEY ∈ renderErrors (some valueOfKey) none := by
  refine ⟨by decide, by decide⟩

/-- C9 (amended): for every action the capability table marks as requiring an
identifier, an empty identifier always yields the missing-identifier error and
one 400 Failure envelope carrying the collected messages; and for an unknown
action the missing-identifier error cannot fire provided the action does not
name a property inherited from Object.prototype. -/
theorem C9_missing_identifier_amended :
    (∀ (env : Env) (a : String) (identifier : Option String),
        VALID_ACTIONS_own a = some true → isNonEmptyStr identifier = false →
        lsg VALID_IDENTIFIER_REQUIRED_KEY ∈ renderErrors (some a) identifier ∧
        render env (some a) identifier = rejectResponse (renderErrors (some a) identifier)) ∧
    (∀ (a : String) (identifier : Option String),
        VALID_ACTIONS_own a = none → a ∉ objectProtoProps →
        lsg VALID_IDENTIFIER_REQUIRED_KEY ∉ renderErrors (some a) identifier) := by
  constructor
  · intro env a identifier hown hid
    have hla : lookupAction (some a) = some PropVal.ownTrue := by
      simp [lookupAction, hown]
    have hmem : lsg VALID_IDENTIFIER_REQUIRED_KEY ∈ renderErrors (some a) identifier := by
      simp [renderErrors, hla, actionTruthy, hid]
    refine ⟨hmem, ?_⟩
    have hne : renderErrors (some a) identifier ≠ [] := by
      intro hnil
      rw [hnil] at hmem
      exact List.not_mem_nil _ hmem
    have hl : 0 < (renderErrors (some a) identifier).length := List.length_pos.mpr hne
    simp [render, hl]
  · intro a identifier hown hproto
    have hl : lookupAction (some a) = none := by
      simp [lookupAction, hown, hproto]
    simp [renderErrors, hl, actionTruthy, lsg, VALID_ACTION_REQUIRED_KEY,
      VALID_IDENTIFIER_REQUIRED_KEY]

/-- C9 witness: the amended statement applied at the declared action install
with an absent identifier, and at the concrete unknown action bogus with a
non-empty identifier. -/
theorem C9_missing_identifier_amended_witness :
    (lsg VALID_IDENTIFIER_REQUIRED_KEY ∈ renderErrors (some ACTION_INSTALL) none ∧
      render env0 (some ACTION_INSTALL) none =
        rejectResponse (renderErrors (some ACTION_INSTALL) none)) ∧
    lsg VALID_IDENTIFIER_REQUIRED_KEY ∉ renderErrors (some otherAction) (some sampleId) :=
  ⟨C9_missing_identifier_amended.1 env0 ACTION_INSTALL none (by decide) (by decide),
    C9_missing_identifier_amended.2 otherAction (some sampleId) (by decide) (by decide)⟩

/-- C3: for the default-theme sentinel identifier, set_theme never answers with
the not-found signal and always reaches persistence whatever the lookup
delivered; and with any lookup error, no plugin and a clean persistence the raw
requested identifier is persisted as the active theme and the handler answers
with a 200 Success envelope. -/
theorem C3_default_theme_bypass :
    (∀ (e : Option JsError) (p : Option Plugin) (perr : Option JsError),
        (set_theme DEFAULT_THEME e p perr).outcome ≠ Outcome.notFound ∧
        (set_theme DEFAULT_THEME e p perr).persisted.isSome = true) ∧
    (∀ e : Option JsError,
        set_theme DEFAULT_THEME e none none =
          ⟨Outcome.response
              ⟨apiResponse ApiStatus.success (jsFormat (lsg SET_THEME_SUCCESS_KEY) DEFAULT_THEME)
                  ApiData.missing,
                some 200⟩,
            some DEFAULT_THEME⟩) := by
  constructor
  · intro e p perr
    cases p <;> cases perr <;> simp [set_theme, set_theme_apply]
  · intro e
    simp [set_theme, set_theme_apply]

/-- C6: for a non-default identifier, a lookup error answers with a 500 Failure
envelope carrying the message of the error, while an error-free lookup that
returns no plugin or a plugin without a theme object answers with the distinct
not-found signal and no envelope; in both cases persistence is never reached. -/
theorem C6_non_default_lookup_outcomes (uid : String) (h : uid ≠ DEFAULT_THEME) :
    (∀ (e : JsError) (p : Option Plugin) (perr : Option JsError),
        set_theme uid (some e) p perr =
          ⟨Outcome.response
              ⟨apiResponse ApiStatus.failure (jsFormat (lsg SET_THEME_FAILED_KEY) uid)
                  (ApiData.list [e.message]),
                some 500⟩,
            none⟩) ∧
    (∀ (p : Option Plugin) (perr : Option JsError),
        validThemePlugin p = false →
        set_theme uid none p perr = ⟨Outcome.notFound, none⟩) := by
  constructor
  · intro e p perr
    simp [set_theme, h]
  · intro p perr hv
    simp [set_theme, h, hv]

/-- C6 witness: the statement applied at the concrete non-default identifier
plugin-x, once with a lookup error and once with a plugin lacking a theme
object. -/
theorem C6_non_default_lookup_outcomes_witness :
    set_theme sampleUid (some boomErr) none none =
      ⟨Outcome.response
          ⟨apiResponse ApiStatus.failure (jsFormat (lsg SET_THEME_FAILED_KEY) sampleUid)
              (ApiData.list [boomErr.message]),
            some 500⟩,
        none⟩ ∧
    set_theme sampleUid none (some themelessPlugin) none = ⟨Outcome.notFound, none⟩ :=
  ⟨(C6_non_default_lookup_outcomes sampleUid (by decide)).1 boomErr none none,
    (C6_non_default_lookup_outcomes sampleUid (by decide)).2 (some themelessPlugin) none
      (by decide)⟩

/-- C4: whenever the Load step fails, which in the code happens exactly when
the lookup returns no plugin, async.series stops after the first task: the
settings-reset and theme-settings-reset tasks are never invoked (exactly one
task started) and the run answers through the failure branch of the final
callback with the formatted not-found error. -/
theorem C4_load_failure_short_circuit (uid : String) (le re rte : Option JsError) :
    (reset_settings uid le none re rte).stepsInvoked = 1 ∧
    (reset_settings uid le none re rte).outcome =
      reset_settings_final uid (some ⟨jsFormat (lsg PLUGIN_NOT_FOUND_KEY) uid, none⟩) :=
  ⟨rfl, rfl⟩

/-- C7: on any pipeline failure the final callback of reset_settings answers
with a 400 Failure envelope whose data list starts with the primary message and
continues with each validationErrors message in original order when that array
is present; on pipeline success it answers with a Success envelope carrying a
formatted message, no data and no explicit code; and the composed handler
reaches that failure branch with the not-found error when the lookup returns no
plugin. -/
theorem C7_reset_settings_envelopes (uid : String) :
    (∀ e : JsError,
        reset_settings_final uid (some e) =
          Outcome.response
            ⟨apiResponse ApiStatus.failure (jsFormat (lsg RESET_SETTINGS_FAILED_KEY) uid)
                (ApiData.list (e.message ::
                  (match e.validationErrors with
                    | some l => l.map SubError.message
                    | none => []))),
              some 400⟩) ∧
    reset_settings_final uid none =
      Outcome.response
        ⟨apiResponse ApiStatus.success (jsFormat (lsg RESET_SETTINGS_SUCCESS_KEY) uid)
            ApiData.missing,
          none⟩ ∧
    (∀ le re rte : Option JsError,
        (reset_settings uid le none re rte).outcome =
          reset_settings_final uid (some ⟨jsFormat (lsg PLUGIN_NOT_FOUND_KEY) uid, none⟩)) :=
  ⟨fun _ => rfl, rfl, fun _ _ _ => rfl⟩

/-- C8: a plugin-lookup error answers with a 500 Failure envelope whose message
list is exactly the message of the error and the initialiser is not invoked; on
lookup success the initialiser is invoked, its error answers with a 400 Failure
envelope and its success with a 200 Success envelope; the handler is a total
function producing exactly one outcome per request. -/
theorem C8_init_action_envelopes (uid : String) :
    (∀ (e : JsError) (ierr : Option JsError),
        initAction uid (some e) ierr =
          ⟨Outcome.response
              ⟨apiResponse ApiStatus.failure (jsFormat (lsg INITIALIZATION_FAILED_KEY) uid)
                  (ApiData.list [e.message]),
                some 500⟩,
            false⟩) ∧
    (∀ e : JsError,
        initAction uid none (some e) =
          ⟨Outcome.response
              ⟨apiResponse ApiStatus.failure (jsFormat (lsg INITIALIZATION_FAILED_KEY) uid)
                  (ApiData.list [e.message]),
                some 400⟩,
            true⟩) ∧
    initAction uid none none =
      ⟨Outcome.response
          ⟨apiResponse ApiStatus.success (jsFormat (lsg INITIALIZATION_SUCCESS_KEY) uid)
              ApiData.missing,
            some 200⟩,
        true⟩ :=
  ⟨fun _ _ => rfl, fun _ => rfl, rfl⟩

/-- C10: whenever the lookup returns a plugin object, the Load task evaluates
the identifier PluginDetailsLoader, which is declared nowhere in the module, so
the task throws instead of calling back successfully: the run crashes with that
ReferenceError after exactly one started task, and the settings-reset and
theme-settings-reset tasks are unreachable for any existing plugin. -/
theorem C10_details_loader_unreachable_steps (uid : String) (le re rte : Option JsError)
    (p : Plugin) :
    (reset_settings uid le (some p) re rte).outcome = Outcome.crash REF_ERROR_DETAILS_LOADER ∧
    (reset_settings uid le (some p) re rte).stepsInvoked = 1 :=
  ⟨rfl, rfl⟩

end PluginApi
